import Mathlib

/-!
Shallow embedding of the IntegrationHub 32-bit Linux wrapper repository.

The repository consists of two source files:
* `IntegrationHubWrapper.h` — a header of nine `extern "C"` function
  declarations (no bodies), an opaque connection-handle typedef and two
  callback function types, resolved directly against the external
  closed-source shared library;
* `test.cpp` — a demo console program: two callback functions, three
  test helpers (`sendBasketTest`, `sendPaymentTest`, `getFiscalInfoTest`),
  an interactive loop `threadHandle` and a `main` that spawns one thread.

The external library is modelled abstractly as a structure `ExtLib` of
response functions; every call into it is recorded as a `LibCall` event,
so a run of the demo is embedded as the list of library calls it makes
together with the list of lines it prints.
-/

namespace IntegrationHub

/-- Possibly-null pointer to the opaque `ConnectionWrapper`; `none` models
`nullptr`, `some n` a non-null handle value. -/
abbrev Ptr := Option Nat

/-- Event recording one invocation of an external-library function together
with the exact arguments the call site passed. -/
inductive LibCall where
  | createCommunication (companyName : String)
  | deleteCommunication (ptr : Ptr)
  | reconnect (ptr : Ptr)
  | getActiveDeviceIndex (ptr : Ptr)
  | sendBasket (ptr : Ptr) (jsonData : String)
  | sendPayment (ptr : Ptr) (jsonData : String)
  | getFiscalInfo (ptr : Ptr)
  | setSerialInCallback (ptr : Ptr)
  | setDeviceStateCallback (ptr : Ptr)
deriving DecidableEq

/-- Type of the demo-side serial-data callback: it receives an int tag and a
string and produces the lines it prints (the embedding of a `void` C++
function whose only effect is console output). -/
abbrev SerialInCallbackFn := Int → String → List String

/-- Type of the demo-side device-state callback: a bool state and a device-id
string, producing printed lines. -/
abbrev DeviceStateCallbackFn := Bool → String → List String

/-- Abstract model of the external closed-source shared library: one response
function per value-returning entry point. The void entry points
(`deleteCommunication`, `reconnect`, the two callback setters) need no
response field. -/
structure ExtLib where
  createCommunication : String → Ptr
  getActiveDeviceIndex : Ptr → Int
  sendBasket : Ptr → String → Int
  sendPayment : Ptr → String → Int
  getFiscalInfo : Ptr → String

namespace Wrapper

/-- Embedding of the header declaration `createCommunication`: the header has
no body, so a call is exactly one library call with the argument unchanged,
returning the library's handle unchanged. -/
def createCommunication (lib : ExtLib) (companyName : String) :
    List LibCall × Ptr :=
  ([LibCall.createCommunication companyName], lib.createCommunication companyName)

/-- Embedding of the header declaration `deleteCommunication` (void). -/
def deleteCommunication (ptr : Ptr) : List LibCall × Unit :=
  ([LibCall.deleteCommunication ptr], ())

/-- Embedding of the header declaration `reconnect` (void). -/
def reconnect (ptr : Ptr) : List LibCall × Unit :=
  ([LibCall.reconnect ptr], ())

/-- Embedding of the header declaration `getActiveDeviceIndex`. -/
def getActiveDeviceIndex (lib : ExtLib) (ptr : Ptr) : List LibCall × Int :=
  ([LibCall.getActiveDeviceIndex ptr], lib.getActiveDeviceIndex ptr)

/-- Embedding of the header declaration `sendBasket`. -/
def sendBasket (lib : ExtLib) (ptr : Ptr) (jsonData : String) :
    List LibCall × Int :=
  ([LibCall.sendBasket ptr jsonData], lib.sendBasket ptr jsonData)

/-- Embedding of the header declaration `sendPayment`. -/
def sendPayment (lib : ExtLib) (ptr : Ptr) (jsonData : String) :
    List LibCall × Int :=
  ([LibCall.sendPayment ptr jsonData], lib.sendPayment ptr jsonData)

/-- Embedding of the header declaration `getFiscalInfo`. -/
def getFiscalInfo (lib : ExtLib) (ptr : Ptr) : List LibCall × String :=
  ([LibCall.getFiscalInfo ptr], lib.getFiscalInfo ptr)

/-- Embedding of the header declaration `setSerialInCallback` (void). -/
def setSerialInCallback (ptr : Ptr) (callback : SerialInCallbackFn) :
    List LibCall × Unit :=
  ([LibCall.setSerialInCallback ptr], ())

/-- Embedding of the header declaration `setDeviceStateCallback` (void). -/
def setDeviceStateCallback (ptr : Ptr) (callback : DeviceStateCallbackFn) :
    List LibCall × Unit :=
  ([LibCall.setDeviceStateCallback ptr], ())

end Wrapper

/-! Demo program `test.cpp`. -/

/-- Embedding of `setSerialInCallbackTest` from `test.cpp`: prints the data. -/
def setSerialInCallbackTest (tag : Int) (data : String) : List String :=
  ["Serial In Callback Result In Test: \n" ++ data]

/-- Embedding of `setDeviceStateCallbackTest` from `test.cpp`: prints only the
device id; the bool state parameter is unused in the body. -/
def setDeviceStateCallbackTest (state : Bool) (deviceId : String) : List String :=
  ["Device State Callback Result In Test: \n" ++ deviceId]

/-- Exact JSON basket payload sent for the X30TR device (activeDevice 0) at
`test.cpp` line 50. Braces are written with hex escapes and the two
U+FFFD characters of the item name appear as unicode escapes. -/
def basketX30TR : String :=
  "\x7b\n  \"basketID\": \"a123ca24-ca2c-401c-8134-f0de2ec25c25\",\n  \"documentType\": 9008,\n  \"customerInfo\": \x7b\n    \"taxID\": \"11111111111\"\n  \x7d,\n  \"items\": [\n    \x7b\n      \"name\": \"�LA�\",\n      \"price\": 1000,\n      \"quantity\": 1000,\n      \"sectionNo\": 2,\n      \"taxPercent\": 2000,\n      \"type\": 0\n    \x7d\n  ],\n  \"taxFreeAmount\": 5000,\n  \"paymentItems\": [\n    \x7b\n      \"amount\": 6000,\n      \"description\": \"Cash\",\n      \"type\": 1\n    \x7d\n  ]\n\x7d"

/-- Exact JSON basket payload sent for the 300TR device (activeDevice 1) at
`test.cpp` line 53. -/
def basket300TR : String :=
  "\x7b\n  \"basketID\": \"a123ca24-ca2c-401c-8134-f0de2ec25c25\",\n  \"documentType\": 0,\n  \"customerInfo\": \x7b\n    \"taxID\": \"11111111111\"\n  \x7d,\n  \"items\": [\n    \x7b\n      \"name\": \"�LA�\",\n      \"price\": 1000,\n      \"quantity\": 1000,\n      \"sectionNo\": 1,\n      \"taxPercent\": 1000,\n      \"type\": 0\n    \x7d\n  ],\n  \"taxFreeAmount\": 5000\n\x7d"

/-- Exact JSON payment payload sent at `test.cpp` line 66. -/
def paymentJson300TR : String :=
  "\x7b\"amount\":6000,\"description\":\"Nakit\",\"type\":1\x7d"

/-- Embedding of `sendBasketTest`: branches on the active device index and
sends the model-specific hardcoded payload, printing the returned status;
any other index does nothing. -/
def sendBasketTest (lib : ExtLib) (communication : Ptr) (activeDevice : Int) :
    List LibCall × List String :=
  if activeDevice = 0 then
    let basketResult := Wrapper.sendBasket lib communication basketX30TR
    (basketResult.1, ["basketResult: " ++ toString basketResult.2])
  else if activeDevice = 1 then
    let basketResult := Wrapper.sendBasket lib communication basket300TR
    (basketResult.1, ["basketResult: " ++ toString basketResult.2])
  else
    ([], [])

/-- Embedding of `sendPaymentTest`: sends the hardcoded payment only when the
active device index is 1 (300TR), printing the returned status. -/
def sendPaymentTest (lib : ExtLib) (communication : Ptr) (activeDevice : Int) :
    List LibCall × List String :=
  if activeDevice = 1 then
    let paymentResult := Wrapper.sendPayment lib communication paymentJson300TR
    (paymentResult.1, ["paymentResult: " ++ toString paymentResult.2])
  else
    ([], [])

/-- Embedding of `getFiscalInfoTest`: retrieves and prints fiscal info. -/
def getFiscalInfoTest (lib : ExtLib) (communication : Ptr) :
    List LibCall × List String :=
  let fiscalInfo := Wrapper.getFiscalInfo lib communication
  (fiscalInfo.1, ["Get Fiscal Info Result In Test: \n" ++ fiscalInfo.2])

/-- Company name passed to `createCommunication` in `threadHandle`. -/
def companyName : String := "TokenLinuxTest"

/-- Menu lines printed at the top of every loop iteration. -/
def menuLines : List String :=
  ["Press [0-3] to execute the actions below",
   "0: Get Active Device",
   "1: Send Example Basket",
   "2: Send Example Payment",
   "3: Get Fiscal Info"]

/-- Embedding of the `switch (input)` statement of the loop body: cases 0-3
dispatch to the test helpers, the default case does nothing. -/
def dispatch (lib : ExtLib) (communication : Ptr) (input : Int)
    (activeDevice : Int) : List LibCall × List String :=
  if input = 0 then
    ([], ["Active Device Index " ++ toString activeDevice])
  else if input = 1 then
    sendBasketTest lib communication activeDevice
  else if input = 2 then
    sendPaymentTest lib communication activeDevice
  else if input = 3 then
    getFiscalInfoTest lib communication
  else
    ([], [])

/-- One iteration of the `while (true)` loop of `threadHandle`: print the
menu, read `input`, call `getActiveDeviceIndex` once, then dispatch. -/
def threadHandleIter (lib : ExtLib) (communication : Ptr) (input : Int) :
    List LibCall × List String :=
  let active := Wrapper.getActiveDeviceIndex lib communication
  let dispatched := dispatch lib communication input active.2
  (active.1 ++ dispatched.1, menuLines ++ dispatched.2)

/-- Setup section of `threadHandle` before the loop: create the communication
handle and register both callbacks (the 3-second sleep has no observable
effect in the model). -/
def threadHandleSetup (lib : ExtLib) : List LibCall × Ptr :=
  let communication := Wrapper.createCommunication lib companyName
  let serial := Wrapper.setSerialInCallback communication.2 setSerialInCallbackTest
  let state := Wrapper.setDeviceStateCallback communication.2 setDeviceStateCallbackTest
  (communication.1 ++ serial.1 ++ state.1, communication.2)

/-- Trace of `threadHandle` over a finite prefix of the integers read from
standard input: the setup calls followed by the calls and prints of one
loop iteration per consumed input. The loop itself never terminates and
contains no call to `deleteCommunication`. -/
def threadHandle (lib : ExtLib) (inputs : List Int) :
    List LibCall × List String :=
  let setup := threadHandleSetup lib
  let iters := inputs.map (fun input => threadHandleIter lib setup.2 input)
  (setup.1 ++ (iters.map Prod.fst).flatten, (iters.map Prod.snd).flatten)

/-! Embedding of `main` as the literal sequence of thread-management
statements it contains, in a statement language rich enough to express
locking and cancellation so their absence is a statement about the code. -/

/-- Functions of `test.cpp` that a thread can be spawned on. -/
inductive DemoFn where
  | threadHandle
deriving DecidableEq

/-- Thread-management statement forms available to the demo. -/
inductive MainStmt where
  | spawnThread (body : DemoFn)
  | joinThread (body : DemoFn)
  | lockMutex
  | unlockMutex
  | cancelThread (body : DemoFn)
deriving DecidableEq

/-- Embedding of `main`: construct one `std::thread` on `threadHandle`, then
join it. -/
def mainStmts : List MainStmt :=
  [MainStmt.spawnThread DemoFn.threadHandle,
   MainStmt.joinThread DemoFn.threadHandle]

/-! Embedding of the declaration surface of `IntegrationHubWrapper.h`. -/

/-- C types appearing in the header's signatures. -/
inductive CType where
  | void
  | int
  | bool
  | string
  | connectionWrapperPtr
  | serialInCallbackTy
  | deviceStateCallbackTy
deriving DecidableEq

/-- A C-callable function declaration: name, argument types, return type. -/
structure CFunDecl where
  name : String
  args : List CType
  ret : CType
deriving DecidableEq

/-- The nine `extern "C"` function declarations of the header, in order. -/
def headerFunDecls : List CFunDecl :=
  [⟨"createCommunication", [CType.string], CType.connectionWrapperPtr⟩,
   ⟨"deleteCommunication", [CType.connectionWrapperPtr], CType.void⟩,
   ⟨"reconnect", [CType.connectionWrapperPtr], CType.void⟩,
   ⟨"getActiveDeviceIndex", [CType.connectionWrapperPtr], CType.int⟩,
   ⟨"sendBasket", [CType.connectionWrapperPtr, CType.string], CType.int⟩,
   ⟨"sendPayment", [CType.connectionWrapperPtr, CType.string], CType.int⟩,
   ⟨"getFiscalInfo", [CType.connectionWrapperPtr], CType.string⟩,
   ⟨"setSerialInCallback", [CType.connectionWrapperPtr, CType.serialInCallbackTy], CType.void⟩,
   ⟨"setDeviceStateCallback", [CType.connectionWrapperPtr, CType.deviceStateCallbackTy], CType.void⟩]

/-- The two callback function types declared by the header, as signatures. -/
def headerCallbackDecls : List CFunDecl :=
  [⟨"SerialInCallback", [CType.int, CType.string], CType.void⟩,
   ⟨"DeviceStateCallback", [CType.bool, CType.string], CType.void⟩]

/-- The header's typedef of the opaque handle: `typedef void ConnectionWrapper`. -/
def connectionWrapperTypedef : String × CType := ("ConnectionWrapper", CType.void)

/-! Helper predicates and a concrete library instance used for witnesses. -/

/-- Whether a library call is a `deleteCommunication` call. -/
def isDeleteCall : LibCall → Bool
  | LibCall.deleteCommunication _ => true
  | _ => false

/-- Whether a library call is a `getActiveDeviceIndex` call. -/
def isGetActiveCall : LibCall → Bool
  | LibCall.getActiveDeviceIndex _ => true
  | _ => false

/-- Number of `deleteCommunication` calls in a trace. -/
def deleteCount (calls : List LibCall) : Nat :=
  calls.countP (fun call => isDeleteCall call)

/-- Whether a main statement spawns a thread. -/
def isSpawnStmt : MainStmt → Bool
  | MainStmt.spawnThread _ => true
  | _ => false

/-- Whether a main statement is a lock or unlock. -/
def isLockStmt : MainStmt → Bool
  | MainStmt.lockMutex => true
  | MainStmt.unlockMutex => true
  | _ => false

/-- Whether a main statement cancels a thread. -/
def isCancelStmt : MainStmt → Bool
  | MainStmt.cancelThread _ => true
  | _ => false

/-- Character-list version of "the first list starts with the second". -/
def leadsWith : List Char → List Char → Bool
  | [], _ => true
  | _ :: _, [] => false
  | p :: ps, c :: cs => p == c && leadsWith ps cs

/-- Whether `pat` occurs as a contiguous sublist of the second argument. -/
def hasSubList (pat : List Char) : List Char → Bool
  | [] => leadsWith pat []
  | c :: cs => leadsWith pat (c :: cs) || hasSubList pat cs

/-- Whether `pat` occurs as a substring of `s`. -/
def strContainsSub (s pat : String) : Bool :=
  hasSubList pat.data s.data

/-- A concrete external-library instance used to instantiate universally
quantified theorems at a specific point. -/
def libExample : ExtLib where
  createCommunication := fun _ => some 1
  getActiveDeviceIndex := fun _ => 0
  sendBasket := fun _ _ => 0
  sendPayment := fun _ _ => 0
  getFiscalInfo := fun _ => ""

/-! Theorems settling the specification claims. -/

/-- C1: every wrapper operation is a direct, unmodified forward to the
external library: for every input it emits exactly the one corresponding
library call with the caller-supplied arguments (payload strings included)
unchanged, and returns the library's response unchanged, adding no logic,
validation, transformation, retry or state of its own. -/
theorem wrapper_is_pure_forward (lib : ExtLib) (p : Ptr)
    (company jsonData : String)
    (serialCb : SerialInCallbackFn) (stateCb : DeviceStateCallbackFn) :
    Wrapper.createCommunication lib company
      = ([LibCall.createCommunication company], lib.createCommunication company) ∧
    Wrapper.deleteCommunication p = ([LibCall.deleteCommunication p], ()) ∧
    Wrapper.reconnect p = ([LibCall.reconnect p], ()) ∧
    Wrapper.getActiveDeviceIndex lib p
      = ([LibCall.getActiveDeviceIndex p], lib.getActiveDeviceIndex p) ∧
    Wrapper.sendBasket lib p jsonData
      = ([LibCall.sendBasket p jsonData], lib.sendBasket p jsonData) ∧
    Wrapper.sendPayment lib p jsonData
      = ([LibCall.sendPayment p jsonData], lib.sendPayment p jsonData) ∧
    Wrapper.getFiscalInfo lib p
      = ([LibCall.getFiscalInfo p], lib.getFiscalInfo p) ∧
    Wrapper.setSerialInCallback p serialCb
      = ([LibCall.setSerialInCallback p], ()) ∧
    Wrapper.setDeviceStateCallback p stateCb
      = ([LibCall.setDeviceStateCallback p], ()) :=
  ⟨rfl, rfl, rfl, rfl, rfl, rfl, rfl, rfl, rfl⟩

/-- C10: the device-state callback registered by the demo ignores the boolean
connection-state flag: two invocations differing only in the state argument
but sharing the device id print exactly the same output. -/
theorem deviceStateCallback_ignores_state (s1 s2 : Bool) (deviceId : String) :
    setDeviceStateCallbackTest s1 deviceId
      = setDeviceStateCallbackTest s2 deviceId :=
  rfl

/-- C8: the demo sends a payment only when the active device index is 1
(300TR): for any other index `sendPaymentTest` performs no library call and
prints nothing, and choosing menu option 2 is likewise a silent no-op. -/
theorem sendPayment_silent_unless_300TR (lib : ExtLib) (c : Ptr) (d : Int)
    (hd : d ≠ 1) :
    sendPaymentTest lib c d = ([], []) ∧ dispatch lib c 2 d = ([], []) := by
  constructor
  · simp [sendPaymentTest, hd]
  · simp [dispatch, sendPaymentTest, hd]

/-- Witness for `sendPayment_silent_unless_300TR` at device index 0 (X30TR)
on the concrete library `libExample`. -/
theorem sendPayment_silent_unless_300TR_witness :
    sendPaymentTest libExample (some 1) 0 = ([], [])
      ∧ dispatch libExample (some 1) 2 0 = ([], []) :=
  sendPayment_silent_unless_300TR libExample (some 1) 0 (by decide)

/-- C7: the header declares exactly nine C-callable functions with the listed
names, an opaque connection-handle typedef (`void ConnectionWrapper`), and
exactly two callback types with signatures `SerialInCallback : (int, string)
→ void` and `DeviceStateCallback : (bool, string) → void`. -/
theorem header_declares_nine_functions :
    headerFunDecls.map (fun d => d.name)
      = ["createCommunication", "deleteCommunication", "reconnect",
         "getActiveDeviceIndex", "sendBasket", "sendPayment", "getFiscalInfo",
         "setSerialInCallback", "setDeviceStateCallback"] ∧
    headerFunDecls.length = 9 ∧
    connectionWrapperTypedef = ("ConnectionWrapper", CType.void) ∧
    headerCallbackDecls
      = [⟨"SerialInCallback", [CType.int, CType.string], CType.void⟩,
         ⟨"DeviceStateCallback", [CType.bool, CType.string], CType.void⟩] ∧
    headerCallbackDecls.length = 2 := by
  refine ⟨rfl, rfl, rfl, rfl, rfl⟩

/-- C6: `main` spawns exactly one thread, running `threadHandle`, and then
joins it; it contains no locking, coordination or cancellation statement. -/
theorem main_single_thread_join :
    mainStmts = [MainStmt.spawnThread DemoFn.threadHandle,
                 MainStmt.joinThread DemoFn.threadHandle] ∧
    mainStmts.countP (fun s => isSpawnStmt s) = 1 ∧
    mainStmts.countP (fun s => isLockStmt s) = 0 ∧
    mainStmts.countP (fun s => isCancelStmt s) = 0 := by
  refine ⟨rfl, rfl, rfl, rfl⟩

/-- C2: each loop iteration reads an integer and dispatches exactly as the
numeric menu 0-3 specifies: 0 prints the active device index, 1 invokes the
example-basket send, 2 invokes the example-payment send, 3 retrieves and
prints fiscal info, and any other integer performs no device operation (and
prints nothing) in the dispatch. -/
theorem demo_menu_dispatch (lib : ExtLib) (c : Ptr) (d : Int) :
    (∀ i : Int, threadHandleIter lib c i
      = (LibCall.getActiveDeviceIndex c
           :: (dispatch lib c i (lib.getActiveDeviceIndex c)).1,
         menuLines ++ (dispatch lib c i (lib.getActiveDeviceIndex c)).2)) ∧
    dispatch lib c 0 d = ([], ["Active Device Index " ++ toString d]) ∧
    dispatch lib c 1 d = sendBasketTest lib c d ∧
    dispatch lib c 2 d = sendPaymentTest lib c d ∧
    dispatch lib c 3 d = getFiscalInfoTest lib c ∧
    (∀ i : Int, i ≠ 0 → i ≠ 1 → i ≠ 2 → i ≠ 3 →
      dispatch lib c i d = ([], [])) := by
  refine ⟨fun i => rfl, rfl, rfl, rfl, rfl, fun i h0 h1 h2 h3 => ?_⟩
  simp [dispatch, h0, h1, h2, h3]

/-- Witness for `demo_menu_dispatch` on the concrete library `libExample`:
option 0 prints the index and the out-of-menu input 7 dispatches to
nothing. -/
theorem demo_menu_dispatch_witness :
    dispatch libExample (some 1) 0 0
      = ([], ["Active Device Index " ++ toString (0 : Int)]) ∧
    dispatch libExample (some 1) 7 0 = ([], []) :=
  ⟨(demo_menu_dispatch libExample (some 1) 0).2.1,
   (demo_menu_dispatch libExample (some 1) 0).2.2.2.2.2 7
     (by decide) (by decide) (by decide) (by decide)⟩

set_option maxRecDepth 16384 in
/-- C3: the demo sends hardcoded JSON payloads per device model: index 0
(X30TR) sends the fixed string `basketX30TR`, index 1 (300TR) sends the
fixed string `basket300TR`, any other index sends nothing; the two strings
differ, with documentType 9008 vs 0, sectionNo 2 vs 1, taxPercent 2000 vs
1000, and only the X30TR payload contains paymentItems. -/
theorem demo_hardcoded_baskets (lib : ExtLib) (c : Ptr) :
    sendBasketTest lib c 0
      = ([LibCall.sendBasket c basketX30TR],
         ["basketResult: " ++ toString (lib.sendBasket c basketX30TR)]) ∧
    sendBasketTest lib c 1
      = ([LibCall.sendBasket c basket300TR],
         ["basketResult: " ++ toString (lib.sendBasket c basket300TR)]) ∧
    (∀ d : Int, d ≠ 0 → d ≠ 1 → sendBasketTest lib c d = ([], [])) ∧
    basketX30TR ≠ basket300TR ∧
    strContainsSub basketX30TR "\"documentType\": 9008" = true ∧
    strContainsSub basket300TR "\"documentType\": 0" = true ∧
    strContainsSub basketX30TR "\"sectionNo\": 2" = true ∧
    strContainsSub basket300TR "\"sectionNo\": 1" = true ∧
    strContainsSub basketX30TR "\"taxPercent\": 2000" = true ∧
    strContainsSub basket300TR "\"taxPercent\": 1000" = true ∧
    strContainsSub basketX30TR "paymentItems" = true ∧
    strContainsSub basket300TR "paymentItems" = false := by
  refine ⟨rfl, rfl, fun d h0 h1 => ?_, by decide, rfl, rfl, rfl, rfl, rfl,
    rfl, rfl, rfl⟩
  simp [sendBasketTest, h0, h1]

/-- Witness for `demo_hardcoded_baskets`: the unknown index 5 sends nothing
on the concrete library `libExample`, and the two payloads differ. -/
theorem demo_hardcoded_baskets_witness :
    sendBasketTest libExample (some 1) 5 = ([], [])
      ∧ basketX30TR ≠ basket300TR :=
  ⟨(demo_hardcoded_baskets libExample (some 1)).2.2.1 5 (by decide) (by decide),
   (demo_hardcoded_baskets libExample (some 1)).2.2.2.1⟩

/-- The dispatch section of a loop iteration never calls
`getActiveDeviceIndex` itself, whatever the input and device index. -/
theorem dispatch_no_getActive (lib : ExtLib) (c : Ptr) (i d : Int) :
    (dispatch lib c i d).1.countP (fun call => isGetActiveCall call) = 0 := by
  unfold dispatch sendBasketTest sendPaymentTest getFiscalInfoTest
  split_ifs <;> rfl

/-- C9: on every loop iteration, `getActiveDeviceIndex` is called exactly
once, as the first library call of the iteration (after reading the input,
before dispatching), whatever option was chosen. -/
theorem getActiveDeviceIndex_each_iteration (lib : ExtLib) (c : Ptr) (i : Int) :
    (threadHandleIter lib c i).1.head? = some (LibCall.getActiveDeviceIndex c) ∧
    (threadHandleIter lib c i).1.countP (fun call => isGetActiveCall call)
      = 1 := by
  refine ⟨rfl, ?_⟩
  simp only [threadHandleIter, Wrapper.getActiveDeviceIndex, List.countP_append]
  rw [dispatch_no_getActive]
  rfl

/-- Calls made by one loop iteration do not depend on the library's
`sendBasket`/`sendPayment`/`getFiscalInfo` responses. -/
theorem iter_calls_independent (lib : ExtLib)
    (f g : Ptr → String → Int) (h : Ptr → String) (c : Ptr) (i : Int) :
    (threadHandleIter
        { lib with sendBasket := f, sendPayment := g, getFiscalInfo := h }
        c i).1
      = (threadHandleIter lib c i).1 := by
  simp only [threadHandleIter, dispatch, sendBasketTest, sendPaymentTest,
    getFiscalInfoTest, Wrapper.getActiveDeviceIndex, Wrapper.sendBasket,
    Wrapper.sendPayment, Wrapper.getFiscalInfo]
  split_ifs <;> rfl

/-- C5: the demo performs no error checking beyond printing returned values:
replacing the library's `sendBasket`/`sendPayment` status codes and
`getFiscalInfo` string by arbitrary other responses leaves the demo's
entire trace of device calls (hence its control flow) unchanged; those
responses influence only the printed output. -/
theorem demo_calls_independent_of_results (lib : ExtLib)
    (f g : Ptr → String → Int) (h : Ptr → String) (inputs : List Int) :
    (threadHandle
        { lib with sendBasket := f, sendPayment := g, getFiscalInfo := h }
        inputs).1
      = (threadHandle lib inputs).1 := by
  have hsetup2 : (threadHandleSetup
      { lib with sendBasket := f, sendPayment := g, getFiscalInfo := h }).2
        = (threadHandleSetup lib).2 := rfl
  have hsetup1 : (threadHandleSetup
      { lib with sendBasket := f, sendPayment := g, getFiscalInfo := h }).1
        = (threadHandleSetup lib).1 := rfl
  simp only [threadHandle, hsetup1, hsetup2]
  congr 1
  congr 1
  simp only [List.map_map]
  apply List.map_congr_left
  intro input _
  exact iter_calls_independent lib f g h (threadHandleSetup lib).2 input

/-- A loop iteration makes no `deleteCommunication` call, whatever the input
and the library's responses. -/
theorem iter_no_delete (lib : ExtLib) (c : Ptr) (i : Int) :
    (threadHandleIter lib c i).1.countP (fun call => isDeleteCall call)
      = 0 := by
  simp only [threadHandleIter, dispatch, sendBasketTest, sendPaymentTest,
    getFiscalInfoTest]
  split_ifs <;> rfl

/-- C4 counterexample: the claim that `deleteCommunication` is called exactly
once along every execution of the demo fails on the concrete run of
`threadHandle` over `libExample` with the single input 0, which makes zero
`deleteCommunication` calls. -/
theorem demo_releases_handle_counterexample :
    deleteCount (threadHandle libExample [0]).1 ≠ 1 := by decide

/-- C4 amended: the demo never releases the connection handle: along every
execution prefix of `threadHandle`, the number of `deleteCommunication`
calls is zero — `test.cpp` contains no call to `deleteCommunication` and
its loop never terminates. -/
theorem demo_never_calls_deleteCommunication (lib : ExtLib)
    (inputs : List Int) :
    deleteCount (threadHandle lib inputs).1 = 0 := by
  have hiters : ∀ (l : List Int),
      ((l.map (fun input =>
          threadHandleIter lib (threadHandleSetup lib).2 input)).map
        Prod.fst).flatten.countP (fun call => isDeleteCall call) = 0 := by
    intro l
    induction l with
    | nil => rfl
    | cons i is ih =>
      simp only [List.map_cons, List.flatten_cons, List.countP_append]
      rw [iter_no_delete, ih]
  simp only [deleteCount, threadHandle, List.countP_append]
  rw [hiters]
  rfl

end IntegrationHub
